import Mathlib

/-!
# badlogger: a process-wide leveled console logger

Shallow embedding of `badlogger.go`.

* The package-level variables (`one`, `h`, `pDebug`, `pLog`, `pWarn`, `pErr`) are the
  fields of `State`, passed explicitly; `written` is the trace of lines the loggers
  handed to their writers, in order.
* A `*log.Logger` is an `Option Logger` (`none` is the nil pointer).  A `Logger` is the
  triple given to `log.New`: writer, prefix string, flag word.
* An `error` value is an `Option String`: `none` is nil, `some m` an error whose
  `Error()` is `m`.
* Go strings are Lean `String`s (the valid UTF-8 ones); `len(s)` is `String.utf8ByteSize`.
* `logLevel` is an `Int`; no arithmetic is done on it, only comparisons.
* Package initialisation is modelled on the references between the package-level
  declarations (`Decl.refs`, `initOrder`); `loadState` is the state the declaration of
  `h` is written to produce, `packageLoad` whether initialisation reaches it.
* A writer's output is the list of lines handed to it (`sink`).  `ioutil.Discard` is a
  writer like the others in that list: what it is handed is recorded, nothing is kept.
* Library calls are modelled for the way this package calls them: `fmt.Sprintf` with a
  format and no operands (`fmtSprintf`), `(*color.Color).Sprintf` (`Color.Sprintf`),
  `log.New`, `(*log.Logger).Println` and `Fatalln` (with the header of
  `formatHeader`).  What the runtime supplies at a call (clock reading, call site) is
  the explicit input `Runtime`.  Package `color` is not part of the repository and no
  release of it is pinned: what it contributes (the value of `color.NoColor`, and which
  reset sequence its release writes) is the explicit input `ColorLib`.
-/

namespace Badlogger

/-! ## Writers, colours, loggers -/

/-- The `io.Writer`s a logger can point at: `ioutil.Discard`, `os.Stdout`, `os.Stderr`,
or any other writer a caller built a custom logger on. -/
inductive Writer where
  | Discard
  | Stdout
  | Stderr
  | other (id : Nat)
  deriving DecidableEq, Repr

/-- A `*color.Color`: the list of SGR attributes given to `color.New`. -/
structure Color where
  params : List Nat
  deriving DecidableEq, Repr

def FgRed : Nat := 31
def FgGreen : Nat := 32
def FgYellow : Nat := 33
def FgBlue : Nat := 34
def FgMagenta : Nat := 35
def Bold : Nat := 1

def Green : Color := ⟨[FgGreen, Bold]⟩
def Yellow : Color := ⟨[FgYellow, Bold]⟩
def Red : Color := ⟨[FgRed, Bold]⟩
def Magenta : Color := ⟨[FgMagenta, Bold]⟩
def Blue : Color := ⟨[FgBlue, Bold]⟩

/-- Flag bits of package `log`. -/
def Ldate : Nat := 1
def Ltime : Nat := 2
def Lmicroseconds : Nat := 4
def Llongfile : Nat := 8
def Lshortfile : Nat := 16
def LUTC : Nat := 32
def Lmsgprefix : Nat := 64

/-- The value `log.New(out, prefix, flag)` points to. -/
structure Logger where
  out : Writer
  pfx : String
  flag : Nat
  deriving DecidableEq, Repr

/-- The function `log.New`. -/
def logNew (out : Writer) (pfx : String) (flag : Nat) : Logger := ⟨out, pfx, flag⟩

/-! ## `fmt.Sprintf(format)` with no operands (`doPrintf` of fmt/print.go) -/

/-- The byte `format[i]`, read only at `i < len(format)`. -/
def byteAt (format : List Char) (i : Nat) : Char := format.getD i ' '

def tooLarge (x : Nat) : Bool := decide (x > 1000000)

def parsenumLoop (s : List Char) (stop : Nat) : Nat → Nat → Nat → Bool → Nat × Bool × Nat
  | 0, newi, num, isnum => (num, isnum, newi)
  | fuel + 1, newi, num, isnum =>
    if newi < stop ∧ (byteAt s newi).isDigit then
      if tooLarge num then (0, false, stop)
      else parsenumLoop s stop fuel (newi + 1) (num * 10 + ((byteAt s newi).toNat - 48)) true
    else (num, isnum, newi)

/-- The function `parsenum(s, start, end)`: the number, whether digits were read, the
index after them. -/
def parsenum (s : List Char) (start stop : Nat) : Nat × Bool × Nat :=
  if start ≥ stop then (0, false, stop)
  else parsenumLoop s stop (stop - start) start 0 false

/-- The function `parseArgNumber(format)` on a text starting with `[`: index, width of
the bracketed text, success. -/
def parseArgNumber (format : List Char) : Int × Nat × Bool :=
  if format.length < 3 then (0, 1, false)
  else
    match (format.drop 1).findIdx? (fun c => c == ']') with
    | none => (0, 1, false)
    | some k =>
      let i := k + 1
      let r := parsenum format 1 i
      if !r.2.1 || r.2.2 != i then (0, i + 1, false)
      else ((r.1 : Int) - 1, i + 1, true)

/-- The method `argNumber(argNum, format, i, numArgs)`: new index, whether an index was
found, and the value `goodArgNum` is left with (`good` on entry).  `argNum` stays 0. -/
def argNumber (format : List Char) (i : Nat) (numArgs : Nat) (good : Bool) :
    Nat × Bool × Bool :=
  if format.length ≤ i ∨ byteAt format i ≠ '[' then (i, false, good)
  else
    let r := parseArgNumber (format.drop i)
    if r.2.2 ∧ 0 ≤ r.1 ∧ r.1 < (numArgs : Int) then (i + r.2.1, true, good)
    else (i + r.2.1, r.2.2, false)

def skipText (format : List Char) (stop : Nat) : Nat → Nat → Nat
  | 0, i => i
  | fuel + 1, i => if i < stop ∧ byteAt format i ≠ '%' then skipText format stop fuel (i + 1) else i

def isFlag (c : Char) : Bool := c == '#' || c == '0' || c == '+' || c == '-' || c == ' '

def skipFlags (format : List Char) (stop : Nat) : Nat → Nat → Nat
  | 0, i => i
  | fuel + 1, i => if i < stop ∧ isFlag (byteAt format i) then skipFlags format stop fuel (i + 1) else i

def badWidthString : List Char := "%!(BADWIDTH)".data
def badPrecString : List Char := "%!(BADPREC)".data
def noVerbString : List Char := "%!(NOVERB)".data
def percentBangString : List Char := "%!".data
def missingString : List Char := "(MISSING)".data
def badIndexString : List Char := "(BADINDEX)".data

/-- The width part of one verb: index, `afterIndex`, `goodArgNum`, buffer. -/
def widthStep (format : List Char) (stop i : Nat) (afterIndex good : Bool) (buf : List Char) :
    Nat × Bool × Bool × List Char :=
  if i < stop ∧ byteAt format i = '*' then
    (i + 1, false, good, buf ++ badWidthString)
  else
    let r := parsenum format i stop
    (r.2.2, afterIndex, if afterIndex && r.2.1 then false else good, buf)

/-- The precision part of one verb: index, `afterIndex`, `goodArgNum`, buffer. -/
def precStep (format : List Char) (stop i : Nat) (afterIndex good : Bool) (buf : List Char) :
    Nat × Bool × Bool × List Char :=
  if i + 1 < stop ∧ byteAt format i = '.' then
    let good := if afterIndex then false else good
    let a := argNumber format (i + 1) 0 good
    if a.1 < stop ∧ byteAt format a.1 = '*' then
      (a.1 + 1, false, a.2.2, buf ++ badPrecString)
    else
      ((parsenum format a.1 stop).2.2, a.2.1, a.2.2, buf)
  else (i, afterIndex, good, buf)

/-- The loop `formatLoop` of `doPrintf(format, a)` for an empty `a`, from index `i`
with output `buf`. -/
def doPrintf (format : List Char) : Nat → Nat → List Char → List Char
  | 0, _, buf => buf
  | fuel + 1, i, buf =>
    let stop := format.length
    if i ≥ stop then buf
    else
      let j := skipText format stop stop i
      let buf := buf ++ (format.drop i).take (j - i)
      if j ≥ stop then buf
      else
        let j := skipFlags format stop stop (j + 1)
        let a := argNumber format j 0 true
        let w := widthStep format stop a.1 a.2.1 a.2.2 buf
        let p := precStep format stop w.1 w.2.1 w.2.2.1 w.2.2.2
        let b := if p.2.1 then (p.1, p.2.1, p.2.2.1) else argNumber format p.1 0 p.2.2.1
        if b.1 ≥ stop then p.2.2.2 ++ noVerbString
        else
          let verb := byteAt format b.1
          let out :=
            if verb = '%' then [ '%' ]
            else if !b.2.2 then percentBangString ++ [verb] ++ badIndexString
            else percentBangString ++ [verb] ++ missingString
          doPrintf format fuel (b.1 + 1) (p.2.2.2 ++ out)

/-- The call `fmt.Sprintf(format)`. -/
def fmtSprintf (format : String) : String :=
  String.mk (doPrintf format.data (format.length + 1) 0 [])


/-! ## `(*color.Color).Sprintf` -/

def digitChar (d : Nat) : Char := Char.ofNat (48 + d)

/-- The loop of `itoa(buf, i, wid)` of log/log.go: decimal digits of `i`, zero-padded
to `wid`; the fuel is the length of its 20-byte buffer. -/
def itoaLoop : Nat → Nat → Int → List Char → List Char
  | 0, _, _, acc => acc
  | fuel + 1, i, wid, acc =>
    if i ≥ 10 ∨ wid > 1 then itoaLoop fuel (i / 10) (wid - 1) (digitChar (i % 10) :: acc)
    else digitChar i :: acc

def itoa (i : Nat) (wid : Int) : String := String.mk (itoaLoop 20 i wid [])

/-- The method `sequence`: the attributes in decimal, joined by `;`. -/
def Color.sequence (c : Color) : String := ";".intercalate (c.params.map (fun a => itoa a (-1)))

def escape : String := "\x1b"

def Color.format (c : Color) : String := escape ++ "[" ++ c.sequence ++ "m"

/-- What package `color` contributes to a call: the value of `color.NoColor`, and
whether the release resets each attribute on its own (from v1.16.0) or writes the
single reset of the earlier releases. -/
structure ColorLib where
  NoColor : Bool
  resetPerAttribute : Bool
  deriving DecidableEq, Repr

/-- The table `mapResetAttributes` of the releases that reset per attribute: the reset
of a style attribute, `Reset` (0) for any other. -/
def resetAttribute (a : Nat) : Nat :=
  if a = 1 ∨ a = 2 then 22
  else if a = 3 then 23
  else if a = 4 then 24
  else if a = 5 ∨ a = 6 then 25
  else if a = 7 then 27
  else if a = 8 then 28
  else if a = 9 then 29
  else 0

/-- The method `unformat`: the single reset, or the resets of the colour's attributes
joined by `;`. -/
def Color.unformat (lib : ColorLib) (c : Color) : String :=
  if lib.resetPerAttribute then
    escape ++ "[" ++ ";".intercalate (c.params.map (fun a => itoa (resetAttribute a) (-1))) ++ "m"
  else escape ++ "[0m"

/-- The method `wrap`: the text between the colour's escape sequence and the reset,
or the text alone when colour output is off. -/
def Color.wrap (lib : ColorLib) (c : Color) (s : String) : String :=
  if lib.NoColor then s else c.format ++ s ++ c.unformat lib

/-- The method `Sprintf(format)` called with a format and no operands. -/
def Color.Sprintf (lib : ColorLib) (c : Color) (format : String) : String :=
  c.wrap lib (fmtSprintf format)

/-! ## `(*log.Logger).Output` -/

/-- A clock reading. -/
structure Time where
  year : Nat
  month : Nat
  day : Nat
  hour : Nat
  min : Nat
  sec : Nat
  nsec : Nat
  deriving DecidableEq, Repr

/-- What the runtime supplies to one logging call: `time.Now()` (and the same instant
in UTC), and the file and line of the call site. -/
structure Runtime where
  now : Time
  utc : Time
  file : String
  line : Nat
  deriving DecidableEq, Repr

/-- The last path element of `file`, as the `Lshortfile` loop of `formatHeader` cuts it:
the text after the last `/` at an index above 0. -/
def shortFile (file : String) : String :=
  match ((file.data.drop 1).reverse).findIdx? (fun c => c == '/') with
  | none => file
  | some k => String.mk (file.data.drop (file.data.length - k))

/-- The method `formatHeader`: prefix, date, time, call site, as the flags ask. -/
def formatHeader (l : Logger) (rt : Runtime) : String :=
  let t := if l.flag &&& LUTC ≠ 0 then rt.utc else rt.now
  (if l.flag &&& Lmsgprefix = 0 then l.pfx else "")
  ++ (if l.flag &&& (Ldate ||| Ltime ||| Lmicroseconds) ≠ 0 then
        (if l.flag &&& Ldate ≠ 0 then
          itoa t.year 4 ++ "/" ++ itoa t.month 2 ++ "/" ++ itoa t.day 2 ++ " " else "")
        ++ (if l.flag &&& (Ltime ||| Lmicroseconds) ≠ 0 then
          itoa t.hour 2 ++ ":" ++ itoa t.min 2 ++ ":" ++ itoa t.sec 2
          ++ (if l.flag &&& Lmicroseconds ≠ 0 then "." ++ itoa (t.nsec / 1000) 6 else "")
          ++ " " else "")
      else "")
  ++ (if l.flag &&& (Lshortfile ||| Llongfile) ≠ 0 then
        (if l.flag &&& Lshortfile ≠ 0 then shortFile rt.file else rt.file)
        ++ ":" ++ itoa rt.line (-1) ++ ": "
      else "")
  ++ (if l.flag &&& Lmsgprefix ≠ 0 then l.pfx else "")

/-- The line `Output(calldepth, s)` hands to the writer: header, `s`, and a line break
when `s` does not end in one. -/
def outputLine (l : Logger) (rt : Runtime) (s : String) : String :=
  formatHeader l rt ++ s ++ (if s.data.getLast? = some '\n' then "" else "\n")


/-! ## The package state -/

/-- The struct `Handles`. -/
structure Handles where
  debug : Option Logger
  debugNP : Option Logger
  log : Option Logger
  logNP : Option Logger
  warn : Option Logger
  error : Option Logger
  fatality : Option Logger
  deriving DecidableEq, Repr

/-- The field `LogHandles` of `CustomConfig`. -/
structure CustomLogHandles where
  Debug : Option Logger
  DebugNoPrefix : Option Logger
  Log : Option Logger
  LogNoPrefix : Option Logger
  Warn : Option Logger
  Error : Option Logger
  Fatal : Option Logger
  deriving DecidableEq, Repr

/-- The field `Prefixes` of `CustomConfig`. -/
structure CustomPrefixes where
  Debug : String
  Log : String
  Warn : String
  Err : String
  deriving DecidableEq, Repr

/-- The struct `CustomConfig`. -/
structure CustomConfig where
  LogHandles : CustomLogHandles
  Prefixes : CustomPrefixes
  deriving DecidableEq, Repr

/-- The package-level variables, and the lines written so far (each with the writer it
was handed to; `Discard` accepts a line and keeps nothing, the trace still records
that it was handed one). -/
structure State where
  one : Bool
  h : Handles
  pDebug : String
  pLog : String
  pWarn : String
  pErr : String
  written : List (Writer × String)
  deriving DecidableEq, Repr

/-- How a call ends: it returns, it panics (nil pointer dereference), or it ends the
process through `os.Exit(code)`. -/
inductive Outcome (α : Type) where
  | returned (val : α) (st : State)
  | panicked (st : State)
  | exited (code : Nat) (st : State)
  deriving DecidableEq, Repr

/-- An `error` value. -/
abbrev GoError := Option String

/-! ## Logger construction -/

def setupLoggerWithDatesAndTimes (lib : ColorLib) (outputWriter : Writer) (colouriser : Color)
    (prefixText : String) : Logger :=
  logNew outputWriter (colouriser.Sprintf lib prefixText) (Ldate ||| Ltime)

def setupLoggerWithDates (lib : ColorLib) (outputWriter : Writer) (colouriser : Color)
    (prefixText : String) : Logger :=
  logNew outputWriter (colouriser.Sprintf lib prefixText) Ldate

def setupLoggerWithTimes (lib : ColorLib) (outputWriter : Writer) (colouriser : Color)
    (prefixText : String) : Logger :=
  logNew outputWriter (colouriser.Sprintf lib prefixText) Ltime

def setupLogger (lib : ColorLib) (outputWriter : Writer) (colouriser : Color)
    (prefixText : String) : Logger :=
  logNew outputWriter (colouriser.Sprintf lib prefixText) 0

/-- The function `setupLoggers`: six assignments to fields of `h`; `h.fatality` is not
among them. -/
def setupLoggers (lib : ColorLib) (DebugWriter LogWriter warnWriter errorWriter : Writer)
    (dateStamps timeStamps : Bool) (st : State) : State :=
  if dateStamps && timeStamps then
    { st with
      h := { st.h with
        debug := some (setupLoggerWithDatesAndTimes lib DebugWriter Green st.pDebug)
        log := some (setupLoggerWithDatesAndTimes lib LogWriter Green st.pLog)
        debugNP := some (setupLogger lib DebugWriter Green "")
        logNP := some (setupLogger lib LogWriter Green "")
        warn := some (setupLoggerWithDatesAndTimes lib warnWriter Magenta st.pWarn)
        error := some (setupLoggerWithDatesAndTimes lib errorWriter Red st.pErr) } }
  else if dateStamps && !timeStamps then
    { st with
      h := { st.h with
        debug := some (setupLoggerWithDates lib DebugWriter Green st.pDebug)
        log := some (setupLoggerWithDates lib LogWriter Green st.pLog)
        debugNP := some (setupLogger lib DebugWriter Green "")
        logNP := some (setupLogger lib LogWriter Green "")
        warn := some (setupLoggerWithDates lib warnWriter Magenta st.pWarn)
        error := some (setupLoggerWithDates lib errorWriter Red st.pErr) } }
  else if timeStamps && !dateStamps then
    { st with
      h := { st.h with
        debug := some (setupLoggerWithTimes lib DebugWriter Green st.pDebug)
        log := some (setupLoggerWithTimes lib LogWriter Green st.pLog)
        debugNP := some (setupLogger lib DebugWriter Green "")
        logNP := some (setupLogger lib LogWriter Green "")
        warn := some (setupLoggerWithTimes lib warnWriter Magenta st.pWarn)
        error := some (setupLoggerWithTimes lib errorWriter Red st.pErr) } }
  else
    { st with
      h := { st.h with
        debug := some (setupLogger lib DebugWriter Green st.pDebug)
        log := some (setupLogger lib LogWriter Green st.pLog)
        debugNP := some (setupLogger lib DebugWriter Green "")
        logNP := some (setupLogger lib LogWriter Green "")
        warn := some (setupLogger lib warnWriter Magenta st.pWarn)
        error := some (setupLogger lib errorWriter Red st.pErr) } }

/-- The variables as their declarations leave them before `h` is initialised: `one`
unused, `h` the zero `Handles`, the four prefixes at their literals. -/
def zeroState : State :=
  { one := false
    h := ⟨none, none, none, none, none, none, none⟩
    pDebug := "[-] "
    pLog := "[*] "
    pWarn := "[!] "
    pErr := "[ERROR] "
    written := [] }

/-- The function `crappyInit`: six assignments to fields of `h`, then `return h`. -/
def crappyInit (lib : ColorLib) (st : State) : Handles × State :=
  let st : State :=
    { st with
      h := { st.h with
        debug := some (setupLoggerWithDatesAndTimes lib .Discard Green st.pDebug)
        log := some (setupLoggerWithDatesAndTimes lib .Stdout Green st.pLog)
        debugNP := some (setupLogger lib .Discard Green "")
        logNP := some (setupLogger lib .Stdout Green "")
        warn := some (setupLoggerWithDatesAndTimes lib .Stdout Magenta st.pWarn)
        error := some (setupLoggerWithDatesAndTimes lib .Stderr Red st.pErr) } }
  (st.h, st)

/-- The state the declaration `h Handles = crappyInit()` is written to produce: the
value of `crappyInit()` run on the zero-valued `h`, the prefixes at their literals.
Whether the package gets as far as running it is `packageLoad`. -/
def loadState (lib : ColorLib) : State :=
  let r := crappyInit lib zeroState
  { r.2 with h := r.1 }

/-! ## Configuration -/

/-- The method `one.Do(f)` of `sync.Once`: `f` runs only if no call ran before. -/
def onceDo (f : State → State) (st : State) : State :=
  if st.one then st else { f st with one := true }

def NewCustomLogging (config : CustomConfig) (st : State) : State :=
  onceDo (fun st =>
    { st with
      h :=
        { debug := config.LogHandles.Debug
          debugNP := config.LogHandles.DebugNoPrefix
          log := config.LogHandles.Log
          logNP := config.LogHandles.LogNoPrefix
          warn := config.LogHandles.Warn
          error := config.LogHandles.Error
          fatality := config.LogHandles.Fatal }
      pDebug := config.Prefixes.Debug
      pLog := config.Prefixes.Log
      pWarn := config.Prefixes.Warn
      pErr := config.Prefixes.Err }) st

def NewBasicLogger (lib : ColorLib) (logLevel : Int) (dateStamps timeStamps : Bool)
    (st : State) : State :=
  onceDo (fun st =>
    if logLevel ≥ 4 then
      setupLoggers lib .Stdout .Stdout .Stdout .Stderr dateStamps timeStamps st
    else if logLevel = 3 then
      setupLoggers lib .Discard .Stdout .Stdout .Stderr dateStamps timeStamps st
    else if logLevel = 2 then
      setupLoggers lib .Discard .Discard .Stdout .Stderr dateStamps timeStamps st
    else if logLevel = 1 then
      setupLoggers lib .Discard .Discard .Discard .Stderr dateStamps timeStamps st
    else
      setupLoggers lib .Discard .Discard .Discard .Discard dateStamps timeStamps st) st

def ChangePrefixes (debug log warn err : String) (st : State) : State :=
  let st : State :=
    if debug = "default" ∨ debug.utf8ByteSize = 0 then { st with pDebug := "[-] " }
    else { st with pDebug := debug }
  let st : State :=
    if log = "default" ∨ log.utf8ByteSize = 0 then { st with pLog := "[*] " }
    else { st with pLog := log }
  let st : State :=
    if warn = "default" ∨ warn.utf8ByteSize = 0 then { st with pWarn := "[!] " }
    else { st with pWarn := warn }
  if err = "default" ∨ err.utf8ByteSize = 0 then { st with pErr := "[ERROR] " }
  else { st with pErr := err }

/-! ## Emitting -/

/-- The method `Println(v)` on a `*log.Logger` for one operand whose default format is
`v`: `Output(2, fmt.Sprintln(v))`.  A nil logger panics. -/
def Println (l : Option Logger) (rt : Runtime) (v : String) (st : State) : Outcome Unit :=
  match l with
  | none => .panicked st
  | some l => .returned () { st with written := st.written ++ [(l.out, outputLine l rt (v ++ "\n"))] }

/-- The method `Fatalln(v)`: `Output(2, fmt.Sprintln(v))`, then `os.Exit(1)`.  A nil
logger panics. -/
def Fatalln (l : Option Logger) (rt : Runtime) (v : String) (st : State) : Outcome Unit :=
  match l with
  | none => .panicked st
  | some l => .exited 1 { st with written := st.written ++ [(l.out, outputLine l rt (v ++ "\n"))] }

/-- The text `fmt.Sprintln(err)` prints for `err`, without the line break. -/
def errDefault : GoError → String
  | none => "<nil>"
  | some m => m

/-- The text the verb `%s` prints for `err`. -/
def errVerbS : GoError → String
  | none => "%!s(<nil>)"
  | some m => m

def Debug (rt : Runtime) (s : String) (st : State) : Outcome Unit := Println st.h.debug rt s st

def DebugNP (rt : Runtime) (s : String) (st : State) : Outcome Unit := Println st.h.debugNP rt s st

def Log (rt : Runtime) (s : String) (st : State) : Outcome Unit := Println st.h.log rt s st

def LogNP (rt : Runtime) (s : String) (st : State) : Outcome Unit := Println st.h.logNP rt s st

def Warn (rt : Runtime) (s : String) (st : State) : Outcome Unit := Println st.h.warn rt s st

def Error (rt : Runtime) (s : String) (err : GoError) (st : State) : Outcome Unit :=
  if s.utf8ByteSize = 0 then Println st.h.error rt (errDefault err) st
  else Println st.h.error rt (s ++ " | " ++ errVerbS err) st

def Fatal (rt : Runtime) (s : String) (err : GoError) (st : State) : Outcome Unit :=
  if s.utf8ByteSize = 0 then Fatalln st.h.fatality rt (errDefault err) st
  else Fatalln st.h.fatality rt (s ++ " | " ++ errVerbS err) st

def ErrCheck (err : GoError) : Bool :=
  if err ≠ none then true else false

def ErrCheckLog (rt : Runtime) (custom : String) (err : GoError) (st : State) : Outcome Bool :=
  if err ≠ none then
    match Error rt custom err st with
    | .returned _ st => .returned true st
    | .panicked st => .panicked st
    | .exited code st => .exited code st
  else .returned false st

def ErrCheckFatal (rt : Runtime) (custom : String) (err : GoError) (st : State) : Outcome Unit :=
  if err ≠ none then Fatal rt custom err st else .returned () st

/-- The package-level variables and functions of `badlogger.go`. -/
inductive Decl where
  | one
  | h
  | Green
  | Yellow
  | Red
  | Magenta
  | Blue
  | pDebug
  | pLog
  | pWarn
  | pErr
  | crappyInit
  | NewCustomLogging
  | NewBasicLogger
  | Debug
  | DebugNP
  | Log
  | LogNP
  | Warn
  | Error
  | Fatal
  | ChangePrefixes
  | ErrCheck
  | ErrCheckLog
  | ErrCheckFatal
  | setupLoggers
  | setupLoggerWithDatesAndTimes
  | setupLoggerWithDates
  | setupLoggerWithTimes
  | setupLogger
  deriving DecidableEq, Repr

/-- The variables of the `var` block, in declaration order. -/
def packageVars : List Decl :=
  [.one, .h, .Green, .Yellow, .Red, .Magenta, .Blue, .pDebug, .pLog, .pWarn, .pErr]

def Decl.isFunc (d : Decl) : Bool := !(packageVars.contains d)

/-- The references of a declaration: the package-level variables and functions of this
package named in its initialisation expression (a variable) or its body (a function). -/
def Decl.refs : Decl → List Decl
  | .h => [.crappyInit]
  | .crappyInit =>
    [.h, .setupLoggerWithDatesAndTimes, .Green, .pDebug, .pLog, .setupLogger, .Magenta, .pWarn,
      .Red, .pErr]
  | .NewCustomLogging => [.one, .h, .pDebug, .pLog, .pWarn, .pErr]
  | .NewBasicLogger => [.one, .setupLoggers]
  | .Debug => [.h]
  | .DebugNP => [.h]
  | .Log => [.h]
  | .LogNP => [.h]
  | .Warn => [.h]
  | .Error => [.h]
  | .Fatal => [.h]
  | .ChangePrefixes => [.pDebug, .pLog, .pWarn, .pErr]
  | .ErrCheckLog => [.Error]
  | .ErrCheckFatal => [.Fatal]
  | .setupLoggers =>
    [.h, .setupLoggerWithDatesAndTimes, .Green, .pDebug, .pLog, .setupLogger, .Magenta, .pWarn,
      .Red, .pErr, .setupLoggerWithDates, .setupLoggerWithTimes]
  | _ => []

/-- The dependency relation of Go's package initialisation: `x` depends on `y` if `x`
refers to `y` or to a function that depends on `y`. -/
def dependsOn : Nat → Decl → Decl → Bool
  | 0, _, _ => false
  | fuel + 1, x, y => x.refs.any (fun r => r == y || (r.isFunc && dependsOn fuel r y))

/-- A variable is ready for initialisation: not yet initialised, and depending on no
uninitialised variable. -/
def ready (done : List Decl) (x : Decl) : Bool :=
  !(done.contains x) && packageVars.all (fun y => !(dependsOn 30 x y) || done.contains y)

/-- Initialisation proceeds by the earliest variable in declaration order that is
ready, until none is. -/
def initLoop : Nat → List Decl → List Decl
  | 0, done => done
  | fuel + 1, done =>
    match packageVars.find? (ready done) with
    | none => done
    | some x => initLoop fuel (done ++ [x])

/-- The order in which the variables are initialised; none when variables are left over,
which are then part of an initialisation cycle and the package is not valid. -/
def initOrder : Option (List Decl) :=
  if packageVars.all (fun y => (initLoop packageVars.length []).contains y) then
    some (initLoop packageVars.length [])
  else none

/-- The state at package load, for a package that has an initialisation order. -/
def packageLoad (lib : ColorLib) : Option State :=
  initOrder.map (fun _ => loadState lib)

/-! ## Vocabulary of the specification -/

/-- A text in a style, as it reaches a terminal: after the SGR sequence `sgr` and before
the reset (the single reset, or the reset of a bold colour), or alone when colour
output is off. -/
def specStyled (lib : ColorLib) (sgr : String) (text : String) : String :=
  if lib.NoColor then text
  else "\x1b[" ++ sgr ++ "m" ++ text ++ (if lib.resetPerAttribute then "\x1b[0;22m" else "\x1b[0m")

/-- The destination of a channel handle. -/
def dest (l : Option Logger) : Option Writer := l.map Logger.out

/-- The four timestamp formats of the specification's data model. -/
inductive TimeFormat where
  | none
  | date
  | time
  | dateAndTime
  deriving DecidableEq, Repr

/-- The flag word of package `log` that shows a format. -/
def TimeFormat.flag : TimeFormat → Nat
  | .none => 0
  | .date => Ldate
  | .time => Ltime
  | .dateAndTime => Ldate ||| Ltime

/-- The format the specification assigns to the two stamp flags. -/
def specFormat (dateStamps timeStamps : Bool) : TimeFormat :=
  match dateStamps, timeStamps with
  | true, true => .dateAndTime
  | true, false => .date
  | false, true => .time
  | false, false => .none

/-- A configuration call and its arguments. -/
inductive ConfigCall where
  | basic (logLevel : Int) (dateStamps timeStamps : Bool)
  | custom (config : CustomConfig)

/-- Running a configuration call. -/
def ConfigCall.run (lib : ColorLib) : ConfigCall → State → State
  | .basic logLevel dateStamps timeStamps => NewBasicLogger lib logLevel dateStamps timeStamps
  | .custom config => NewCustomLogging config

/-- The state a call ends in. -/
def Outcome.state {α : Type} : Outcome α → State
  | .returned _ st => st
  | .panicked st => st
  | .exited _ st => st

/-- Colour output on, a release with the single reset. -/
def colorOn : ColorLib := ⟨false, false⟩

/-- Colour output on, a release that resets per attribute. -/
def colorOnPerAttribute : ColorLib := ⟨false, true⟩

/-- Colour output off. -/
def colorOff : ColorLib := ⟨true, false⟩

/-- A clock reading and call site. -/
def sampleRuntime : Runtime :=
  { now := ⟨2026, 11, 1, 9, 5, 3, 0⟩
    utc := ⟨2026, 11, 1, 8, 5, 3, 0⟩
    file := "/src/badlogger.go"
    line := 155 }

/-! ## Facts about the library models -/

/-- What `fmt.Sprintf` makes of some formats when it has no operands. -/
theorem fmtSprintf_samples :
    fmtSprintf "[-] " = "[-] "
    ∧ fmtSprintf "100%" = "100%!(NOVERB)"
    ∧ fmtSprintf "[%d] " = "[%!d(MISSING)] "
    ∧ fmtSprintf "a%%b" = "a%b"
    ∧ fmtSprintf "%[1]d" = "%!d(BADINDEX)"
    ∧ fmtSprintf "%*d" = "%!(BADWIDTH)%!d(MISSING)"
    ∧ fmtSprintf "%-5.2f|" = "%!f(MISSING)|"
    ∧ fmtSprintf "%.*s" = "%!(BADPREC)%!s(MISSING)"
    ∧ fmtSprintf "%." = "%!.(MISSING)"
    ∧ fmtSprintf "%5." = "%!.(MISSING)"
    ∧ fmtSprintf "50%." = "50%!.(MISSING)"
    ∧ fmtSprintf "%.2f" = "%!f(MISSING)"
    ∧ fmtSprintf "%.f" = "%!f(MISSING)" := by
  decide

/-- Lines of `Output` under some flag words. -/
theorem outputLine_samples :
    Green.wrap colorOn "[-] " = "\x1b[32;1m[-] \x1b[0m"
    ∧ Green.wrap colorOnPerAttribute "[-] " = "\x1b[32;1m[-] \x1b[0;22m"
    ∧ Red.wrap colorOff "[ERROR] " = "[ERROR] "
    ∧ itoa 7 2 = "07"
    ∧ itoa 155 (-1) = "155"
    ∧ shortFile "/a/b/badlogger.go" = "badlogger.go"
    ∧ shortFile "/x" = "/x"
    ∧ outputLine ⟨.Stdout, "P ", Ldate ||| Ltime⟩ sampleRuntime "hi\n"
        = "P 2026/11/01 09:05:03 hi\n"
    ∧ outputLine ⟨.Stdout, "P ", Lshortfile ||| Lmsgprefix ||| LUTC ||| Lmicroseconds⟩
        sampleRuntime "hi" = "08:05:03.000000 badlogger.go:155: P hi\n" := by
  decide

theorem skipText_of_no_percent (format : List Char) (hp : ∀ c ∈ format, c ≠ '%') :
    ∀ fuel i, i ≤ format.length → format.length ≤ i + fuel →
      skipText format format.length fuel i = format.length
  | 0, i, h1, h2 => by
    simp only [skipText]
    omega
  | fuel + 1, i, h1, h2 => by
    simp only [skipText]
    by_cases hi : i < format.length
    · have hb : byteAt format i ≠ '%' := by
        unfold byteAt
        rw [List.getD_eq_getElem _ _ hi]
        exact hp _ (List.getElem_mem _)
      rw [if_pos ⟨hi, hb⟩]
      exact skipText_of_no_percent format hp fuel (i + 1) (by omega) (by omega)
    · rw [if_neg (fun h => hi h.1)]
      omega

/-- A format without `%` is printed as it is. -/
theorem fmtSprintf_of_no_percent (s : String) (hp : ∀ c ∈ s.data, c ≠ '%') :
    fmtSprintf s = s := by
  have hlen : s.length = s.data.length := rfl
  unfold fmtSprintf
  rw [hlen]
  simp only [doPrintf]
  by_cases h0 : 0 ≥ s.data.length
  · rw [if_pos h0]
    have : s.data = [] := List.length_eq_zero.1 (by omega)
    rw [← this]
  · rw [if_neg h0, skipText_of_no_percent _ hp _ 0 (by omega) (by omega)]
    simp only [ge_iff_le, le_refl, if_true, List.nil_append, List.drop_zero, Nat.sub_zero,
      tsub_zero]
    rw [List.take_length]

theorem utf8ByteSize_go_pos (c : Char) (cs : List Char) : 0 < String.utf8ByteSize.go (c :: cs) := by
  have := Char.utf8Size_pos c
  simp only [String.utf8ByteSize.go]
  omega

/-- The test `len(s) == 0` holds of the empty string only. -/
theorem len_eq_zero_iff (s : String) : s.utf8ByteSize = 0 ↔ s = "" := by
  cases s with
  | mk cs =>
    cases cs with
    | nil => simp [String.utf8ByteSize, String.utf8ByteSize.go]
    | cons c cs =>
      have h := utf8ByteSize_go_pos c cs
      constructor
      · intro h0
        simp only [String.utf8ByteSize] at h0
        omega
      · intro h0
        exact absurd (congrArg String.data h0) (by simp)

theorem setupLoggers_dest (lib : ColorLib) (a b c e : Writer) (d t : Bool) (st : State) :
    dest (setupLoggers lib a b c e d t st).h.debug = some a
    ∧ dest (setupLoggers lib a b c e d t st).h.log = some b
    ∧ dest (setupLoggers lib a b c e d t st).h.warn = some c
    ∧ dest (setupLoggers lib a b c e d t st).h.error = some e
    ∧ dest (setupLoggers lib a b c e d t st).h.debugNP = some a
    ∧ dest (setupLoggers lib a b c e d t st).h.logNP = some b := by
  cases d <;> cases t <;>
    simp [setupLoggers, dest, setupLogger, setupLoggerWithDates, setupLoggerWithTimes,
      setupLoggerWithDatesAndTimes, logNew]

theorem setupLoggers_fatality (lib : ColorLib) (a b c e : Writer) (d t : Bool) (st : State) :
    (setupLoggers lib a b c e d t st).h.fatality = st.h.fatality := by
  cases d <;> cases t <;> simp [setupLoggers]

theorem NewBasicLogger_fatality (lib : ColorLib) (logLevel : Int) (d t : Bool) (st : State) :
    (NewBasicLogger lib logLevel d t st).h.fatality = st.h.fatality := by
  unfold NewBasicLogger onceDo
  split
  · rfl
  · simp only []
    split_ifs <;> exact setupLoggers_fatality _ _ _ _ _ _ _ _

theorem loadState_one (lib : ColorLib) : (loadState lib).one = false := by
  rcases lib with ⟨_ | _, _ | _⟩ <;> rfl

theorem loadState_fatality (lib : ColorLib) : (loadState lib).h.fatality = none := by
  rcases lib with ⟨_ | _, _ | _⟩ <;> rfl

theorem onceDo_done (f : State → State) (st : State) : (onceDo f st).one = true := by
  unfold onceDo
  split
  · assumption
  · rfl

theorem onceDo_of_done (f : State → State) (st : State) (h : st.one = true) :
    onceDo f st = st := by
  simp [onceDo, h]

theorem ConfigCall.run_done (lib : ColorLib) (c : ConfigCall) (st : State) :
    (c.run lib st).one = true := by
  cases c <;> exact onceDo_done _ _

theorem ChangePrefixes_frame (debug log warn err : String) (st : State) :
    (ChangePrefixes debug log warn err st).h = st.h
    ∧ (ChangePrefixes debug log warn err st).one = st.one
    ∧ (ChangePrefixes debug log warn err st).written = st.written := by
  unfold ChangePrefixes
  split_ifs <;> exact ⟨rfl, rfl, rfl⟩

theorem Println_frame (l : Option Logger) (rt : Runtime) (v : String) (st st2 : State)
    (hw : st2.written = st.written) :
    (Println l rt v st2).state.written = (Println l rt v st).state.written := by
  cases l <;> simp [Println, Outcome.state, hw]

theorem NewBasicLogger_first (lib : ColorLib) (logLevel : Int) (d t : Bool) (st : State)
    (hfirst : st.one = false) :
    ∃ a b c e : Writer, NewBasicLogger lib logLevel d t st
      = { setupLoggers lib a b c e d t st with one := true } := by
  unfold NewBasicLogger onceDo
  rw [hfirst]
  simp only [Bool.false_eq_true, if_false]
  split_ifs <;> exact ⟨_, _, _, _, rfl⟩

theorem fmtSprintf_empty : fmtSprintf "" = "" := by decide

theorem setupLoggers_format (lib : ColorLib) (a b c e : Writer) (d t : Bool) (st : State) :
    (setupLoggers lib a b c e d t st).h.debug.map Logger.flag = some (specFormat d t).flag
    ∧ (setupLoggers lib a b c e d t st).h.log.map Logger.flag = some (specFormat d t).flag
    ∧ (setupLoggers lib a b c e d t st).h.warn.map Logger.flag = some (specFormat d t).flag
    ∧ (setupLoggers lib a b c e d t st).h.error.map Logger.flag = some (specFormat d t).flag
    ∧ (setupLoggers lib a b c e d t st).h.debugNP.map Logger.flag = some TimeFormat.none.flag
    ∧ (setupLoggers lib a b c e d t st).h.logNP.map Logger.flag = some TimeFormat.none.flag
    ∧ (setupLoggers lib a b c e d t st).h.debugNP.map Logger.pfx = some (Green.wrap lib "")
    ∧ (setupLoggers lib a b c e d t st).h.logNP.map Logger.pfx = some (Green.wrap lib "") := by
  cases d <;> cases t <;>
    simp [setupLoggers, setupLogger, setupLoggerWithDates, setupLoggerWithTimes,
      setupLoggerWithDatesAndTimes, logNew, specFormat, TimeFormat.flag, Color.Sprintf,
      fmtSprintf_empty]

theorem setupLoggers_pfx (lib : ColorLib) (a b c e : Writer) (d t : Bool) (st : State) :
    (setupLoggers lib a b c e d t st).h.debug.map Logger.pfx
        = some (Green.Sprintf lib st.pDebug)
    ∧ (setupLoggers lib a b c e d t st).h.log.map Logger.pfx
        = some (Green.Sprintf lib st.pLog)
    ∧ (setupLoggers lib a b c e d t st).h.warn.map Logger.pfx
        = some (Magenta.Sprintf lib st.pWarn)
    ∧ (setupLoggers lib a b c e d t st).h.error.map Logger.pfx
        = some (Red.Sprintf lib st.pErr) := by
  cases d <;> cases t <;>
    simp [setupLoggers, setupLogger, setupLoggerWithDates, setupLoggerWithTimes,
      setupLoggerWithDatesAndTimes, logNew]

/-- Where the text has no `%`: a prefix that is neither empty nor `default`, set by
`ChangePrefixes` before a first `NewBasicLogger`, is the prefix text of the debug, log,
warn and error channels, in the channel's style. -/
theorem prefix_verbatim_of_no_percent (lib : ColorLib) (logLevel : Int) (d t : Bool)
    (p : String) (st : State) (hfirst : st.one = false) (he : p ≠ "") (hd : p ≠ "default")
    (hp : ∀ c ∈ p.data, c ≠ '%') :
    (NewBasicLogger lib logLevel d t (ChangePrefixes p p p p st)).h.debug.map Logger.pfx
        = some (Green.wrap lib p)
    ∧ (NewBasicLogger lib logLevel d t (ChangePrefixes p p p p st)).h.log.map Logger.pfx
        = some (Green.wrap lib p)
    ∧ (NewBasicLogger lib logLevel d t (ChangePrefixes p p p p st)).h.warn.map Logger.pfx
        = some (Magenta.wrap lib p)
    ∧ (NewBasicLogger lib logLevel d t (ChangePrefixes p p p p st)).h.error.map Logger.pfx
        = some (Red.wrap lib p) := by
  have hlen : ¬ (p.utf8ByteSize = 0) := fun h0 => he ((len_eq_zero_iff p).1 h0)
  have hone : (ChangePrefixes p p p p st).one = false :=
    (ChangePrefixes_frame p p p p st).2.1.trans hfirst
  have h1 : (ChangePrefixes p p p p st).pDebug = p := by simp [ChangePrefixes, hd, hlen]
  have h2 : (ChangePrefixes p p p p st).pLog = p := by simp [ChangePrefixes, hd, hlen]
  have h3 : (ChangePrefixes p p p p st).pWarn = p := by simp [ChangePrefixes, hd, hlen]
  have h4 : (ChangePrefixes p p p p st).pErr = p := by simp [ChangePrefixes, hd, hlen]
  obtain ⟨a, b, c, e, heq⟩ := NewBasicLogger_first lib logLevel d t _ hone
  rw [heq]
  have k := setupLoggers_pfx lib a b c e d t (ChangePrefixes p p p p st)
  rw [h1, h2, h3, h4] at k
  simpa [Color.Sprintf, fmtSprintf_of_no_percent p hp] using k

/-! ## The claims -/

/-- C1: when `NewBasicLogger` is the first configuration call (the guard `one` is
unused), the destinations of debug, log, warn and error are those of the level table:
level at least 4, all active (standard output, error on standard error); level 3,
debug discarded; level 2, debug and log discarded; level 1, only error active; level 0
or below, all four discarded.  `debugNP` and `logNP` get the destination of `debug`
and `log`. -/
theorem C1_level_table (lib : ColorLib) (logLevel : Int) (dateStamps timeStamps : Bool)
    (st : State) (hfirst : st.one = false) :
    (4 ≤ logLevel →
        dest (NewBasicLogger lib logLevel dateStamps timeStamps st).h.debug = some .Stdout
      ∧ dest (NewBasicLogger lib logLevel dateStamps timeStamps st).h.log = some .Stdout
      ∧ dest (NewBasicLogger lib logLevel dateStamps timeStamps st).h.warn = some .Stdout
      ∧ dest (NewBasicLogger lib logLevel dateStamps timeStamps st).h.error = some .Stderr)
    ∧ (logLevel = 3 →
        dest (NewBasicLogger lib logLevel dateStamps timeStamps st).h.debug = some .Discard
      ∧ dest (NewBasicLogger lib logLevel dateStamps timeStamps st).h.log = some .Stdout
      ∧ dest (NewBasicLogger lib logLevel dateStamps timeStamps st).h.warn = some .Stdout
      ∧ dest (NewBasicLogger lib logLevel dateStamps timeStamps st).h.error = some .Stderr)
    ∧ (logLevel = 2 →
        dest (NewBasicLogger lib logLevel dateStamps timeStamps st).h.debug = some .Discard
      ∧ dest (NewBasicLogger lib logLevel dateStamps timeStamps st).h.log = some .Discard
      ∧ dest (NewBasicLogger lib logLevel dateStamps timeStamps st).h.warn = some .Stdout
      ∧ dest (NewBasicLogger lib logLevel dateStamps timeStamps st).h.error = some .Stderr)
    ∧ (logLevel = 1 →
        dest (NewBasicLogger lib logLevel dateStamps timeStamps st).h.debug = some .Discard
      ∧ dest (NewBasicLogger lib logLevel dateStamps timeStamps st).h.log = some .Discard
      ∧ dest (NewBasicLogger lib logLevel dateStamps timeStamps st).h.warn = some .Discard
      ∧ dest (NewBasicLogger lib logLevel dateStamps timeStamps st).h.error = some .Stderr)
    ∧ (logLevel ≤ 0 →
        dest (NewBasicLogger lib logLevel dateStamps timeStamps st).h.debug = some .Discard
      ∧ dest (NewBasicLogger lib logLevel dateStamps timeStamps st).h.log = some .Discard
      ∧ dest (NewBasicLogger lib logLevel dateStamps timeStamps st).h.warn = some .Discard
      ∧ dest (NewBasicLogger lib logLevel dateStamps timeStamps st).h.error = some .Discard)
    ∧ dest (NewBasicLogger lib logLevel dateStamps timeStamps st).h.debugNP
        = dest (NewBasicLogger lib logLevel dateStamps timeStamps st).h.debug
    ∧ dest (NewBasicLogger lib logLevel dateStamps timeStamps st).h.logNP
        = dest (NewBasicLogger lib logLevel dateStamps timeStamps st).h.log := by
  have key : ∀ a b c e : Writer,
      NewBasicLogger lib logLevel dateStamps timeStamps st
        = { setupLoggers lib a b c e dateStamps timeStamps st with one := true } →
      dest (NewBasicLogger lib logLevel dateStamps timeStamps st).h.debug = some a
      ∧ dest (NewBasicLogger lib logLevel dateStamps timeStamps st).h.log = some b
      ∧ dest (NewBasicLogger lib logLevel dateStamps timeStamps st).h.warn = some c
      ∧ dest (NewBasicLogger lib logLevel dateStamps timeStamps st).h.error = some e
      ∧ dest (NewBasicLogger lib logLevel dateStamps timeStamps st).h.debugNP = some a
      ∧ dest (NewBasicLogger lib logLevel dateStamps timeStamps st).h.logNP = some b := by
    intro a b c e heq
    rw [heq]
    exact setupLoggers_dest lib a b c e dateStamps timeStamps st
  have h4 : 4 ≤ logLevel → NewBasicLogger lib logLevel dateStamps timeStamps st
      = { setupLoggers lib .Stdout .Stdout .Stdout .Stderr dateStamps timeStamps st
          with one := true } := by
    intro h
    simp [NewBasicLogger, onceDo, hfirst, h]
  have h3 : logLevel = 3 → NewBasicLogger lib logLevel dateStamps timeStamps st
      = { setupLoggers lib .Discard .Stdout .Stdout .Stderr dateStamps timeStamps st
          with one := true } := by
    intro h
    subst h
    simp [NewBasicLogger, onceDo, hfirst]
  have h2 : logLevel = 2 → NewBasicLogger lib logLevel dateStamps timeStamps st
      = { setupLoggers lib .Discard .Discard .Stdout .Stderr dateStamps timeStamps st
          with one := true } := by
    intro h
    subst h
    simp [NewBasicLogger, onceDo, hfirst]
  have h1 : logLevel = 1 → NewBasicLogger lib logLevel dateStamps timeStamps st
      = { setupLoggers lib .Discard .Discard .Discard .Stderr dateStamps timeStamps st
          with one := true } := by
    intro h
    subst h
    simp [NewBasicLogger, onceDo, hfirst]
  have h0 : logLevel ≤ 0 → NewBasicLogger lib logLevel dateStamps timeStamps st
      = { setupLoggers lib .Discard .Discard .Discard .Discard dateStamps timeStamps st
          with one := true } := by
    intro h
    have n4 : ¬ (logLevel ≥ 4) := by omega
    have n3 : ¬ (logLevel = 3) := by omega
    have n2 : ¬ (logLevel = 2) := by omega
    have n1 : ¬ (logLevel = 1) := by omega
    simp [NewBasicLogger, onceDo, hfirst, n4, n3, n2, n1]
  refine ⟨fun h => ?_, fun h => ?_, fun h => ?_, fun h => ?_, fun h => ?_, ?_, ?_⟩
  · have k := key _ _ _ _ (h4 h)
    exact ⟨k.1, k.2.1, k.2.2.1, k.2.2.2.1⟩
  · have k := key _ _ _ _ (h3 h)
    exact ⟨k.1, k.2.1, k.2.2.1, k.2.2.2.1⟩
  · have k := key _ _ _ _ (h2 h)
    exact ⟨k.1, k.2.1, k.2.2.1, k.2.2.2.1⟩
  · have k := key _ _ _ _ (h1 h)
    exact ⟨k.1, k.2.1, k.2.2.1, k.2.2.2.1⟩
  · have k := key _ _ _ _ (h0 h)
    exact ⟨k.1, k.2.1, k.2.2.1, k.2.2.2.1⟩
  · rcases le_or_lt 4 logLevel with h | h
    · have k := key _ _ _ _ (h4 h)
      rw [k.1, k.2.2.2.2.1]
    · rcases (by omega : logLevel = 3 ∨ logLevel = 2 ∨ logLevel = 1 ∨ logLevel ≤ 0)
        with h | h | h | h
      · have k := key _ _ _ _ (h3 h)
        rw [k.1, k.2.2.2.2.1]
      · have k := key _ _ _ _ (h2 h)
        rw [k.1, k.2.2.2.2.1]
      · have k := key _ _ _ _ (h1 h)
        rw [k.1, k.2.2.2.2.1]
      · have k := key _ _ _ _ (h0 h)
        rw [k.1, k.2.2.2.2.1]
  · rcases le_or_lt 4 logLevel with h | h
    · have k := key _ _ _ _ (h4 h)
      rw [k.2.1, k.2.2.2.2.2]
    · rcases (by omega : logLevel = 3 ∨ logLevel = 2 ∨ logLevel = 1 ∨ logLevel ≤ 0)
        with h | h | h | h
      · have k := key _ _ _ _ (h3 h)
        rw [k.2.1, k.2.2.2.2.2]
      · have k := key _ _ _ _ (h2 h)
        rw [k.2.1, k.2.2.2.2.2]
      · have k := key _ _ _ _ (h1 h)
        rw [k.2.1, k.2.2.2.2.2]
      · have k := key _ _ _ _ (h0 h)
        rw [k.2.1, k.2.2.2.2.2]

/-- C1 at package load, levels 3 and -7 with both stamps on: level 3 discards debug
only, level -7 discards all four. -/
theorem C1_level_table_witness :
    (loadState colorOn).one = false
    ∧ (dest (NewBasicLogger colorOn 3 true true (loadState colorOn)).h.debug = some .Discard
      ∧ dest (NewBasicLogger colorOn 3 true true (loadState colorOn)).h.log = some .Stdout
      ∧ dest (NewBasicLogger colorOn 3 true true (loadState colorOn)).h.warn = some .Stdout
      ∧ dest (NewBasicLogger colorOn 3 true true (loadState colorOn)).h.error = some .Stderr)
    ∧ (dest (NewBasicLogger colorOn (-7) true true (loadState colorOn)).h.debug = some .Discard
      ∧ dest (NewBasicLogger colorOn (-7) true true (loadState colorOn)).h.log = some .Discard
      ∧ dest (NewBasicLogger colorOn (-7) true true (loadState colorOn)).h.warn = some .Discard
      ∧ dest (NewBasicLogger colorOn (-7) true true (loadState colorOn)).h.error = some .Discard) :=
  ⟨rfl, (C1_level_table colorOn 3 true true (loadState colorOn) rfl).2.1 rfl,
    (C1_level_table colorOn (-7) true true (loadState colorOn) rfl).2.2.2.2.1 (by decide)⟩

/-- C2, the code at the failing input: `NewBasicLogger` never assigns `h.fatality`, which
package load leaves nil, so after `NewBasicLogger` from package load the fatal handle
is nil for every level and flags, and `Fatal` panics on the nil logger without handing
a line to any writer. -/
theorem C2_fatal_handle_nil (lib0 lib : ColorLib) (logLevel : Int)
    (dateStamps timeStamps : Bool) (rt : Runtime) (s : String) (err : GoError) :
    (NewBasicLogger lib logLevel dateStamps timeStamps (loadState lib0)).h.fatality = none
    ∧ Fatal rt s err (NewBasicLogger lib logLevel dateStamps timeStamps (loadState lib0))
        = .panicked (NewBasicLogger lib logLevel dateStamps timeStamps (loadState lib0))
    ∧ (NewBasicLogger lib logLevel dateStamps timeStamps (loadState lib0)).written = [] := by
  have hf : (NewBasicLogger lib logLevel dateStamps timeStamps (loadState lib0)).h.fatality
      = none := by
    rw [NewBasicLogger_fatality, loadState_fatality]
  refine ⟨hf, ?_, ?_⟩
  · unfold Fatal
    rw [hf]
    split <;> rfl
  · obtain ⟨a, b, c, e, heq⟩ := NewBasicLogger_first lib logLevel dateStamps timeStamps
      (loadState lib0) (loadState_one lib0)
    rw [heq]
    rcases lib0 with ⟨_ | _, _ | _⟩ <;> cases dateStamps <;> cases timeStamps <;> rfl

/-- C3: a configuration call of either kind, run after a configuration call of either
kind, changes nothing: the state after the two calls (handles, prefixes, guard, written
lines) is the state after the first, from every state and so from the state at package
load. -/
theorem C3_one_shot (lib0 lib1 lib2 : ColorLib) (c1 c2 : ConfigCall) (st : State) :
    c2.run lib2 (c1.run lib1 st) = c1.run lib1 st
    ∧ c2.run lib2 (c1.run lib1 (loadState lib0)) = c1.run lib1 (loadState lib0) := by
  have key : ∀ st : State, c2.run lib2 (c1.run lib1 st) = c1.run lib1 st := by
    intro st
    have hd := ConfigCall.run_done lib1 c1 st
    cases c2 with
    | basic a b c => exact (onceDo_of_done _ _ hd : NewBasicLogger lib2 a b c _ = _)
    | custom cfg => exact (onceDo_of_done _ _ hd : NewCustomLogging cfg _ = _)
  exact ⟨key st, key _⟩

/-- C4: after `ChangePrefixes(debug, log, warn, err)`, from every state, each prefix
variable is its default when its argument is empty or `default`, and the argument
otherwise; `ChangePrefixes("", "default", "x", "")` gives the defaults for debug, log
and error and `x` for warn. -/
theorem C4_ChangePrefixes (debug log warn err : String) (st : State) :
    (ChangePrefixes debug log warn err st).pDebug
        = (if debug = "" ∨ debug = "default" then "[-] " else debug)
    ∧ (ChangePrefixes debug log warn err st).pLog
        = (if log = "" ∨ log = "default" then "[*] " else log)
    ∧ (ChangePrefixes debug log warn err st).pWarn
        = (if warn = "" ∨ warn = "default" then "[!] " else warn)
    ∧ (ChangePrefixes debug log warn err st).pErr
        = (if err = "" ∨ err = "default" then "[ERROR] " else err)
    ∧ (ChangePrefixes "" "default" "x" "" st).pDebug = "[-] "
    ∧ (ChangePrefixes "" "default" "x" "" st).pLog = "[*] "
    ∧ (ChangePrefixes "" "default" "x" "" st).pWarn = "x"
    ∧ (ChangePrefixes "" "default" "x" "" st).pErr = "[ERROR] " := by
  have key : ∀ a b c e : String,
      (ChangePrefixes a b c e st).pDebug = (if a = "" ∨ a = "default" then "[-] " else a)
      ∧ (ChangePrefixes a b c e st).pLog = (if b = "" ∨ b = "default" then "[*] " else b)
      ∧ (ChangePrefixes a b c e st).pWarn = (if c = "" ∨ c = "default" then "[!] " else c)
      ∧ (ChangePrefixes a b c e st).pErr = (if e = "" ∨ e = "default" then "[ERROR] " else e) := by
    intro a b c e
    unfold ChangePrefixes
    simp only [len_eq_zero_iff, or_comm]
    split_ifs <;> exact ⟨rfl, rfl, rfl, rfl⟩
  have k := key "" "default" "x" ""
  refine ⟨(key _ _ _ _).1, (key _ _ _ _).2.1, (key _ _ _ _).2.2.1, (key _ _ _ _).2.2.2, ?_, ?_, ?_, ?_⟩
  · rw [k.1]; decide
  · rw [k.2.1]; decide
  · rw [k.2.2.1]; decide
  · rw [k.2.2.2]; decide

/-- C7: when `NewBasicLogger` is the first configuration call, debug, log, warn and
error all carry the timestamp format the two flags select (both: date and time; date
only: date; time only: time; neither: none), whatever the level; `debugNP` and `logNP`
carry the format none and the empty prefix text in the green style. -/
theorem C7_stamp_format (lib : ColorLib) (logLevel : Int) (dateStamps timeStamps : Bool)
    (st : State) (hfirst : st.one = false) :
    (NewBasicLogger lib logLevel dateStamps timeStamps st).h.debug.map Logger.flag
        = some (specFormat dateStamps timeStamps).flag
    ∧ (NewBasicLogger lib logLevel dateStamps timeStamps st).h.log.map Logger.flag
        = some (specFormat dateStamps timeStamps).flag
    ∧ (NewBasicLogger lib logLevel dateStamps timeStamps st).h.warn.map Logger.flag
        = some (specFormat dateStamps timeStamps).flag
    ∧ (NewBasicLogger lib logLevel dateStamps timeStamps st).h.error.map Logger.flag
        = some (specFormat dateStamps timeStamps).flag
    ∧ (NewBasicLogger lib logLevel dateStamps timeStamps st).h.debugNP.map Logger.flag
        = some TimeFormat.none.flag
    ∧ (NewBasicLogger lib logLevel dateStamps timeStamps st).h.logNP.map Logger.flag
        = some TimeFormat.none.flag
    ∧ (NewBasicLogger lib logLevel dateStamps timeStamps st).h.debugNP.map Logger.pfx
        = some (Green.wrap lib "")
    ∧ (NewBasicLogger lib logLevel dateStamps timeStamps st).h.logNP.map Logger.pfx
        = some (Green.wrap lib "") := by
  obtain ⟨a, b, c, e, heq⟩ := NewBasicLogger_first lib logLevel dateStamps timeStamps st hfirst
  rw [heq]
  exact setupLoggers_format lib a b c e dateStamps timeStamps st

/-- C7 at package load, level 2, dates only: the four prefixed channels carry the date
format, the two prefix-free ones none. -/
theorem C7_stamp_format_witness :
    (loadState colorOn).one = false
    ∧ (NewBasicLogger colorOn 2 true false (loadState colorOn)).h.debug.map Logger.flag = some Ldate
    ∧ (NewBasicLogger colorOn 2 true false (loadState colorOn)).h.error.map Logger.flag = some Ldate
    ∧ (NewBasicLogger colorOn 2 true false (loadState colorOn)).h.debugNP.map Logger.flag = some 0
    ∧ (NewBasicLogger colorOn 2 true false (loadState colorOn)).h.logNP.map Logger.pfx
        = some "\x1b[32;1m\x1b[0m" :=
  ⟨rfl, (C7_stamp_format colorOn 2 true false (loadState colorOn) rfl).1,
    (C7_stamp_format colorOn 2 true false (loadState colorOn) rfl).2.2.2.1,
    (C7_stamp_format colorOn 2 true false (loadState colorOn) rfl).2.2.2.2.1,
    ((C7_stamp_format colorOn 2 true false (loadState colorOn) rfl).2.2.2.2.2.2.2).trans (by decide)⟩

/-- C8, the code at package load: the initialiser of `h` calls `crappyInit`, whose body
assigns to `h`, so `h` depends on itself; every other variable is initialised, `h` is
left over, and the package has no initialisation order and no load state.  Run on the
zero-valued `h`, `crappyInit` gives what the claim describes: debug on the discard
sink, log and warn on standard output, error on standard error; debug and log in bold
green (SGR 32;1), warn in bold magenta (35;1), error in bold red (31;1); all four with
date and time stamps (flag word 3, header `2026/11/01 09:05:03 `); the prefix texts
and the four prefix variables at the defaults. -/
theorem C8_init_cycle (lib : ColorLib) :
    dependsOn 30 .h .h = true
    ∧ initLoop packageVars.length []
        = [.one, .Green, .Yellow, .Red, .Magenta, .Blue, .pDebug, .pLog, .pWarn, .pErr]
    ∧ initOrder = none
    ∧ packageLoad lib = none
    ∧ (loadState lib).h.debug = some ⟨.Discard, specStyled lib "32;1" "[-] ", 3⟩
    ∧ (loadState lib).h.log = some ⟨.Stdout, specStyled lib "32;1" "[*] ", 3⟩
    ∧ (loadState lib).h.warn = some ⟨.Stdout, specStyled lib "35;1" "[!] ", 3⟩
    ∧ (loadState lib).h.error = some ⟨.Stderr, specStyled lib "31;1" "[ERROR] ", 3⟩
    ∧ formatHeader ⟨.Stderr, specStyled lib "31;1" "[ERROR] ", 3⟩ sampleRuntime
        = specStyled lib "31;1" "[ERROR] " ++ "2026/11/01 09:05:03 "
    ∧ (loadState lib).pDebug = "[-] "
    ∧ (loadState lib).pLog = "[*] "
    ∧ (loadState lib).pWarn = "[!] "
    ∧ (loadState lib).pErr = "[ERROR] "
    ∧ (loadState lib).one = false := by
  rcases lib with ⟨_ | _, _ | _⟩ <;> decide

/-- C9: `ChangePrefixes` leaves the seven channel handles, the guard and the written
lines as they were, from every state; so `Debug`, `Log`, `Warn` and `Error` called after
it write what they write when called in its place. -/
theorem C9_ChangePrefixes_frame (debug log warn err : String) (st : State)
    (rt : Runtime) (s : String) (e : GoError) :
    (ChangePrefixes debug log warn err st).h = st.h
    ∧ (ChangePrefixes debug log warn err st).one = st.one
    ∧ (ChangePrefixes debug log warn err st).written = st.written
    ∧ (Debug rt s (ChangePrefixes debug log warn err st)).state.written
        = (Debug rt s st).state.written
    ∧ (Log rt s (ChangePrefixes debug log warn err st)).state.written
        = (Log rt s st).state.written
    ∧ (Warn rt s (ChangePrefixes debug log warn err st)).state.written
        = (Warn rt s st).state.written
    ∧ (Error rt s e (ChangePrefixes debug log warn err st)).state.written
        = (Error rt s e st).state.written := by
  have f := ChangePrefixes_frame debug log warn err st
  refine ⟨f.1, f.2.1, f.2.2, ?_, ?_, ?_, ?_⟩
  · simp only [Debug, f.1]
    exact Println_frame _ _ _ _ _ f.2.2
  · simp only [Log, f.1]
    exact Println_frame _ _ _ _ _ f.2.2
  · simp only [Warn, f.1]
    exact Println_frame _ _ _ _ _ f.2.2
  · simp only [Error, f.1]
    split
    · exact Println_frame _ _ _ _ _ f.2.2
    · exact Println_frame _ _ _ _ _ f.2.2

/-- C10, the code at the failing input: with the prefix `[%d] ` set by `ChangePrefixes`,
the debug, log, warn and error channels that a first `NewBasicLogger` builds carry the
prefix text `[%!d(MISSING)] `, which is not the text that was set: the text went
through `Sprintf` as a format. -/
theorem C10_prefix_is_format :
    (NewBasicLogger colorOn 4 true true
        (ChangePrefixes "[%d] " "[%d] " "[%d] " "[%d] " (loadState colorOn))).h.debug.map Logger.pfx
      = some (Green.wrap colorOn "[%!d(MISSING)] ")
    ∧ (NewBasicLogger colorOn 4 true true
        (ChangePrefixes "[%d] " "[%d] " "[%d] " "[%d] " (loadState colorOn))).h.log.map Logger.pfx
      = some (Green.wrap colorOn "[%!d(MISSING)] ")
    ∧ (NewBasicLogger colorOn 4 true true
        (ChangePrefixes "[%d] " "[%d] " "[%d] " "[%d] " (loadState colorOn))).h.warn.map Logger.pfx
      = some (Magenta.wrap colorOn "[%!d(MISSING)] ")
    ∧ (NewBasicLogger colorOn 4 true true
        (ChangePrefixes "[%d] " "[%d] " "[%d] " "[%d] " (loadState colorOn))).h.error.map Logger.pfx
      = some (Red.wrap colorOn "[%!d(MISSING)] ")
    ∧ (NewBasicLogger colorOn 4 true true
        (ChangePrefixes "[%d] " "[%d] " "[%d] " "[%d] " (loadState colorOn))).h.debug.map Logger.pfx
      ≠ some (Green.wrap colorOn "[%d] ") := by
  decide

end Badlogger
